import Mathlib

/-!
Shallow embedding of the audio-stream coordination core of py-xiaozhi:
the `AudioPlugin` in `src/plugins/audio.py` and the volume-ducking part of
`MusicPlayer` in `src/mcp/tools/music/music_player.py`.

Volumes (floats on a 0.0–1.0 scale in the source) are modelled as rationals;
fallible external calls (pycaw/COM interop, asyncio sleep, channel sends) are
modelled by explicit "raises" flags in an environment record, and the
`try/except` structure of the source is mirrored case by case.
-/

namespace XiaoZhi

/-- `TTS_DUCK_LEVEL = 0.2` from music_player.py. -/
def TTS_DUCK_LEVEL : ℚ := 1/5

/-- `MAX_CONCURRENT_AUDIO_SENDS = 4` from plugins/audio.py. -/
def MAX_CONCURRENT_AUDIO_SENDS : Nat := 4

/-- A pycaw audio session for the target process, as seen through
`session.SimpleAudioVolume`: it carries a current master volume. -/
structure AudioSession where
  volume : ℚ
deriving DecidableEq, Repr

/-- Environment for one `duck_volume` / `restore_volume` call: what the OS
audio-session registry and the COM interop layer do during this call. -/
structure DuckEnv where
  /-- `platform.system() == "Windows"`. -/
  isWindows : Bool
  /-- pycaw importable (otherwise `ImportError` is caught in
  `_get_music_session`). -/
  pycawAvailable : Bool
  /-- `AudioUtilities.GetAllSessions()` raises (caught in
  `_get_music_session`). -/
  lookupRaises : Bool
  /-- the session found for `cloudmusic.exe`, if any. -/
  session : Option AudioSession
  /-- `vol.GetMasterVolume()` raises. -/
  getVolRaises : Bool
  /-- `vol.SetMasterVolume(...)` raises. -/
  setVolRaises : Bool
deriving DecidableEq, Repr

/-- `MusicPlayer._get_music_session`: returns the session for
`cloudmusic.exe`, or `None` on non-Windows, missing pycaw, lookup error, or
no matching session; never raises (all failures caught inside). -/
def get_music_session (env : DuckEnv) : Option AudioSession :=
  if ¬ env.isWindows then none
  else if ¬ env.pycawAvailable then none
  else if env.lookupRaises then none
  else env.session

/-- Result of `duck_volume` / `restore_volume`: the stored pre-duck volume
(`self._original_volume`) after the call, the volume written to the session
during the call (`none` = `SetMasterVolume` not reached or raised), and the
returned boolean. Totality of the result models that the method never lets
an exception escape. -/
structure DuckResult where
  originalVolume : Option ℚ
  volumeWritten : Option ℚ
  ret : Bool
deriving DecidableEq, Repr

/-- `MusicPlayer.duck_volume`, line by line: look up the session (`False`
if absent); read the current volume (an interop error is caught, `False`);
if `current <= TTS_DUCK_LEVEL` skip (`False`); otherwise store the current
volume in `self._original_volume`, then set the session volume to
`TTS_DUCK_LEVEL` (a raise there is caught after the store, `False`), and
return `True`. -/
def duck_volume (orig : Option ℚ) (env : DuckEnv) : DuckResult :=
  match get_music_session env with
  | none => ⟨orig, none, false⟩
  | some s =>
    if env.getVolRaises then ⟨orig, none, false⟩
    else if s.volume ≤ TTS_DUCK_LEVEL then ⟨orig, none, false⟩
    else if env.setVolRaises then ⟨some s.volume, none, false⟩
    else ⟨some s.volume, some TTS_DUCK_LEVEL, true⟩

/-- `MusicPlayer.restore_volume`, line by line: if `self._original_volume`
is `None`, return `False`; look up the session again, and if absent clear
the stored value and return `False`; otherwise set the session volume back
to the stored value (a raise is caught and also clears the stored value,
`False`) and clear the stored value, returning `True`. -/
def restore_volume (orig : Option ℚ) (env : DuckEnv) : DuckResult :=
  match orig with
  | none => ⟨none, none, false⟩
  | some v =>
    match get_music_session env with
    | none => ⟨none, none, false⟩
    | some _ =>
      if env.setVolRaises then ⟨none, none, false⟩
      else ⟨none, some v, true⟩

/-- A closed-system view of duck/restore sequences: the stored pre-duck
value together with the target session's current volume, with the session
present and the interop layer healthy, and nothing but duck/restore touching
the volume. -/
structure MusicSystem where
  originalVolume : Option ℚ
  sessionVolume : ℚ
deriving DecidableEq, Repr

/-- The healthy-Windows environment exposing a session at volume `v`. -/
def healthyEnv (v : ℚ) : DuckEnv :=
  ⟨true, true, false, some ⟨v⟩, false, false⟩

/-- One `duck_volume` call in the closed system: run `duck_volume` against
the healthy environment and apply the written volume (if any) back to the
session. -/
def sysDuck (s : MusicSystem) : MusicSystem × Bool :=
  let r := duck_volume s.originalVolume (healthyEnv s.sessionVolume)
  (⟨r.originalVolume, (r.volumeWritten).getD s.sessionVolume⟩, r.ret)

/-- One `restore_volume` call in the closed system. -/
def sysRestore (s : MusicSystem) : MusicSystem × Bool :=
  let r := restore_volume s.originalVolume (healthyEnv s.sessionVolume)
  (⟨r.originalVolume, (r.volumeWritten).getD s.sessionVolume⟩, r.ret)

/-!
## AudioPlugin (src/plugins/audio.py)
-/

/-- Modelled from the spec: the `DeviceState` enum of
`src/constants/constants.py`, which is not part of the sources here; the
spec describes it as a closed enum `{IDLE, CONNECTING, LISTENING, SPEAKING,
...}` of which only LISTENING is distinguished by the audio plugin. -/
inductive DeviceState where
  | idle
  | connecting
  | listening
  | speaking
deriving DecidableEq, Repr

/-- Observable outcome of one `AudioPlugin.on_device_state_changed(state)`
call: the value of `self._in_silence_period` while the handler is suspended
in `asyncio.sleep` (equal to the flag's prior value if the handler never
suspends), the sleep duration in seconds if the handler suspended, the flag
value after the handler exits, and whether an exception escapes the
handler. -/
structure DeviceStateRun where
  flagDuringWait : Bool
  sleepSeconds : Option ℚ
  flagAfter : Bool
  raised : Bool
deriving DecidableEq, Repr

/-- `AudioPlugin.on_device_state_changed`: returns immediately when
`self.codec` is `None`; on LISTENING sets the silence-period flag, awaits
`asyncio.sleep(0.2)`, and clears the flag in a `finally` block (so also when
the sleep raises, in which case the exception propagates after the flag is
cleared); for all other states does nothing. -/
def on_device_state_changed (codecPresent : Bool) (flagBefore : Bool)
    (state : DeviceState) (sleepRaises : Bool) : DeviceStateRun :=
  if ¬ codecPresent then ⟨flagBefore, none, flagBefore, false⟩
  else if state = DeviceState.listening then
    ⟨true, some (1/5), false, sleepRaises⟩
  else ⟨flagBefore, none, flagBefore, false⟩

/-- `AudioPlugin._should_send_microphone_audio`: `False` while in the
silence period; otherwise `self.app and self.app.should_capture_audio()`,
with any exception caught and turned into `False`. The application is
either absent (`none`) or supplies a capture-allowed predicate that returns
a boolean or raises (`Except.error`). -/
def should_send_microphone_audio (inSilencePeriod : Bool)
    (app : Option (Except Unit Bool)) : Bool :=
  if inSilencePeriod then false
  else
    match app with
    | none => false
    | some (Except.error _) => false
    | some (Except.ok b) => b

/-- Observable outcome of one `AudioPlugin._on_encoded_audio(data)` call
(made from the codec's capture thread): whether the handoff
`call_soon_threadsafe(self._schedule_send_audio, data)` was posted to the
main loop, and whether an exception escapes the callback. -/
structure EncodedAudioRun where
  scheduled : Bool
  raised : Bool
deriving DecidableEq, Repr

/-- `AudioPlugin._on_encoded_audio`: inside a blanket `try/except: pass`,
returns (dropping the frame) when the app is absent, the main-loop
reference is unset, the app is not running, or the loop is closed;
otherwise posts the send-scheduling callback to the main loop, with a raise
from `call_soon_threadsafe` itself (e.g. a concurrent loop closure)
swallowed. -/
def on_encoded_audio (appPresent : Bool) (appRunning : Bool)
    (loopPresent : Bool) (loopClosed : Bool) (callSoonRaises : Bool) :
    EncodedAudioRun :=
  if ¬ appPresent ∨ ¬ loopPresent ∨ ¬ appRunning then ⟨false, false⟩
  else if loopClosed then ⟨false, false⟩
  else if callSoonRaises then ⟨false, false⟩
  else ⟨true, false⟩

/-- An event observable during `AudioPlugin._duck_music_for_tts`: a
`clear_audio_queue()` call on the codec, or an invocation of the ducking /
restoring path on the music player. -/
inductive TtsEvent where
  | clearQueue
  | duckMusic
  | restoreMusic
deriving DecidableEq, Repr

/-- Environment for one `_duck_music_for_tts` call. -/
structure TtsStartEnv where
  /-- `self.codec` is not `None`. -/
  codecPresent : Bool
  /-- `codec.clear_audio_queue()` raises (caught by Step 1's `except`). -/
  clearRaises : Bool
  /-- `get_music_player_instance()` raises (caught by Step 2's `except`). -/
  playerLookupRaises : Bool
  /-- outcome of `music_player.is_music_actually_playing()` run in a worker
  thread: a boolean, or a raise (caught by Step 2's `except`). -/
  isPlaying : Except Unit Bool
deriving Repr

/-- Outcome of `_duck_music_for_tts` / `_restore_music_after_tts`: the
ordered list of observable events and whether an exception escapes. -/
structure TtsRun where
  events : List TtsEvent
  raised : Bool
deriving DecidableEq, Repr

/-- `AudioPlugin._duck_music_for_tts`: Step 1, in its own `try`, calls
`clear_audio_queue()` when the codec is present (an error is logged and
swallowed); Step 2, in a separate `try`, obtains the music-player singleton,
checks `is_music_actually_playing()`, and calls `duck_volume` only when it
reported `True`; errors in Step 2 are swallowed and Step 1's outcome does
not influence Step 2. -/
def duck_music_for_tts (env : TtsStartEnv) : TtsRun :=
  let step1 : List TtsEvent :=
    if env.codecPresent then [TtsEvent.clearQueue] else []
  let step2 : List TtsEvent :=
    if env.playerLookupRaises then []
    else
      match env.isPlaying with
      | Except.error _ => []
      | Except.ok b => if b then [TtsEvent.duckMusic] else []
  ⟨step1 ++ step2, false⟩

/-- Environment for one `_restore_music_after_tts` call. -/
structure TtsStopEnv where
  playerLookupRaises : Bool
  /-- `music_player._original_volume` read on the singleton: a value or
  `None` (attribute access itself does not raise). -/
  originalVolume : Option ℚ
deriving DecidableEq, Repr

/-- `AudioPlugin._restore_music_after_tts`: in one `try`, obtains the
singleton and calls `restore_volume` only when `_original_volume` is not
`None`; errors are swallowed. -/
def restore_music_after_tts (env : TtsStopEnv) : TtsRun :=
  if env.playerLookupRaises then ⟨[], false⟩
  else
    match env.originalVolume with
    | none => ⟨[], false⟩
    | some _ => ⟨[TtsEvent.restoreMusic], false⟩

/-- A decoded message as `on_incoming_json` sees it: either not a `dict`,
or a `dict` with optional string `type` and `state` fields (other fields
are never read). -/
inductive JsonMessage where
  | notDict
  | dict (type : Option String) (state : Option String)
deriving DecidableEq, Repr

/-- `AudioPlugin.on_incoming_json`: ignores non-dict messages; for
`type == "tts"` dispatches on `state` (`"start"` → `_duck_music_for_tts`,
`"stop"` → `_restore_music_after_tts`, anything else ignored); any other
`type` is ignored; the whole dispatch is wrapped in `try/except`, so a
raise from either branch is logged and swallowed. The dispatched branch's
environment is passed through; `branchRaises` models an exception escaping
the awaited branch coroutine itself (e.g. cancellation), taken to occur
before the branch's observable events. -/
def on_incoming_json (message : JsonMessage) (startEnv : TtsStartEnv)
    (stopEnv : TtsStopEnv) (branchRaises : Bool) : TtsRun :=
  match message with
  | JsonMessage.notDict => ⟨[], false⟩
  | JsonMessage.dict type state =>
    if type = some "tts" then
      if state = some "start" then
        if branchRaises then ⟨[], false⟩ else duck_music_for_tts startEnv
      else if state = some "stop" then
        if branchRaises then ⟨[], false⟩ else restore_music_after_tts stopEnv
      else ⟨[], false⟩
    else ⟨[], false⟩

/-!
## Concurrency model of the send tasks

`_schedule_send_audio` spawns, per frame, a fire-and-forget `_send()`
coroutine whose body is `async with self._send_sem: ...`: it suspends until
it acquires one permit of the semaphore (capacity
`MAX_CONCURRENT_AUDIO_SENDS`), performs the channel check and send while
holding the permit, and releases the permit on every exit path (normal
return, early return, or exception — the `async with` guarantees release).
We model the set of spawned tasks and the semaphore as an interleaved
transition system and show the permit-holding count is bounded.
-/

/-- Phase of one spawned `_send()` task: created but not yet past the
semaphore; holding a permit (checking the channel / sending); or finished
(permit released). -/
inductive SendPhase where
  | entered
  | holding
  | done
deriving DecidableEq, Repr

/-- State of the send subsystem: free permits of `self._send_sem` and the
multiset of spawned tasks' phases. -/
structure SendState where
  permits : Nat
  tasks : Multiset SendPhase

/-- Initial state: the semaphore is created with
`MAX_CONCURRENT_AUDIO_SENDS` free permits and `n` frames each spawned a
task that has not yet acquired. -/
def sendInit (n : Nat) : SendState :=
  ⟨MAX_CONCURRENT_AUDIO_SENDS, Multiset.replicate n SendPhase.entered⟩

/-- Interleaving steps of the send subsystem. A task may acquire only when
a free permit exists (`asyncio.Semaphore` suspends otherwise); leaving the
`async with` body — by send completion, early return, or exception —
releases the permit. New frames may spawn fresh tasks at any time. -/
inductive SendStep : SendState → SendState → Prop where
  | spawn (p : Nat) (ts : Multiset SendPhase) :
      SendStep ⟨p, ts⟩ ⟨p, SendPhase.entered ::ₘ ts⟩
  | acquire (p : Nat) (ts : Multiset SendPhase) :
      SendStep ⟨p + 1, SendPhase.entered ::ₘ ts⟩ ⟨p, SendPhase.holding ::ₘ ts⟩
  | release (p : Nat) (ts : Multiset SendPhase) :
      SendStep ⟨p, SendPhase.holding ::ₘ ts⟩ ⟨p + 1, SendPhase.done ::ₘ ts⟩

/-- Reachability from an initial state by any interleaving. -/
def SendReachable (n : Nat) (s : SendState) : Prop :=
  Relation.ReflTransGen SendStep (sendInit n) s

/-- Number of sends currently executing while holding a permit. -/
def holdingCount (s : SendState) : Nat :=
  s.tasks.count SendPhase.holding

/-!
## Theorems
-/

/-- In the closed system, one duck call is: no-op returning `False` at or
below the threshold, otherwise store-and-lower returning `True`. -/
theorem sysDuck_eq (s : MusicSystem) :
    sysDuck s =
      if s.sessionVolume ≤ TTS_DUCK_LEVEL then (s, false)
      else (⟨some s.sessionVolume, TTS_DUCK_LEVEL⟩, true) := by
  by_cases h : s.sessionVolume ≤ TTS_DUCK_LEVEL <;>
    simp [sysDuck, duck_volume, healthyEnv, get_music_session, h]

/-- C3: `duck_volume` with a healthy interop layer: no session → returns
`False` with the stored pre-duck volume unchanged and no volume written;
current volume at or below the duck threshold 0.2 → returns `False` and
changes nothing; otherwise stores the current volume as the pre-duck value,
sets the session volume to exactly the threshold, and returns `True`. -/
theorem duck_volume_spec (orig : Option ℚ) (env : DuckEnv)
    (hget : env.getVolRaises = false) (hset : env.setVolRaises = false) :
    (get_music_session env = none →
        duck_volume orig env = ⟨orig, none, false⟩) ∧
    (∀ s, get_music_session env = some s → s.volume ≤ TTS_DUCK_LEVEL →
        duck_volume orig env = ⟨orig, none, false⟩) ∧
    (∀ s, get_music_session env = some s → TTS_DUCK_LEVEL < s.volume →
        duck_volume orig env = ⟨some s.volume, some TTS_DUCK_LEVEL, true⟩) := by
  refine ⟨?_, ?_, ?_⟩
  · intro h
    simp [duck_volume, h]
  · intro s hs hle
    simp [duck_volume, hs, hget, hle]
  · intro s hs hlt
    simp [duck_volume, hs, hget, hset, not_le.mpr hlt]

/-- Witness for C3: a session at volume 0.8 gets ducked to 0.2 with 0.8
stored. -/
theorem duck_volume_spec_witness :
    duck_volume none (healthyEnv (4/5)) =
      ⟨some (4/5), some TTS_DUCK_LEVEL, true⟩ :=
  (duck_volume_spec none (healthyEnv (4/5)) rfl rfl).2.2 ⟨4/5⟩ rfl
    (by norm_num [TTS_DUCK_LEVEL])

/-- C4: `restore_volume`: nothing stored → no-op returning `False`; stored
value but the session is gone → clears the stored value and returns
`False`; stored value and session present (healthy interop) → writes the
stored pre-duck value back, clears it, and returns `True`. -/
theorem restore_volume_spec (orig : Option ℚ) (env : DuckEnv)
    (hset : env.setVolRaises = false) :
    (restore_volume none env = ⟨none, none, false⟩) ∧
    (∀ v, orig = some v → get_music_session env = none →
        restore_volume orig env = ⟨none, none, false⟩) ∧
    (∀ v, orig = some v → (∃ s, get_music_session env = some s) →
        restore_volume orig env = ⟨none, some v, true⟩) := by
  refine ⟨rfl, ?_, ?_⟩
  · intro v hv h
    subst hv
    simp [restore_volume, h]
  · intro v hv ⟨s, hs⟩
    subst hv
    simp [restore_volume, hs, hset]

/-- Witness for C4: with 0.8 stored and a session present, the volume is
written back to 0.8, the store is cleared, and `True` is returned. -/
theorem restore_volume_spec_witness :
    restore_volume (some (4/5)) (healthyEnv (1/5)) =
      ⟨none, some (4/5), true⟩ :=
  (restore_volume_spec (some (4/5)) (healthyEnv (1/5)) rfl).2.2 (4/5) rfl
    ⟨⟨1/5⟩, rfl⟩

/-- Counterexample for C5: `duck_volume` does not check that the stored
pre-duck value is `None` — with 0.5 already stored and the session at 0.8,
it overwrites the store with 0.8 (and returns `True`), contradicting
"stores a pre-duck value only when the stored value is currently None". -/
theorem duck_volume_stores_over_existing :
    (some (1/2) : Option ℚ) ≠ none ∧
    (duck_volume (some (1/2)) (healthyEnv (4/5))).originalVolume =
      some (4/5) ∧
    (duck_volume (some (1/2)) (healthyEnv (4/5))).ret = true := by
  refine ⟨by simp, ?_, ?_⟩ <;>
    norm_num [duck_volume, healthyEnv, get_music_session, TTS_DUCK_LEVEL]

/-- C5 (amended): `duck_volume` stores a pre-duck value only when the
looked-up session's current volume exceeds the duck threshold (with no
check of the previously stored value); `restore_volume` leaves the stored
value cleared on every exit path; and in a closed duck/restore sequence
(nothing else moving the session volume) a second duck right after a
successful duck is a no-op, so at most one meaningful pre-duck value is
held. -/
theorem duck_restore_single_level (orig : Option ℚ) (env : DuckEnv)
    (s : MusicSystem) :
    ((duck_volume orig env).originalVolume ≠ orig →
        ∃ sess, get_music_session env = some sess ∧
          env.getVolRaises = false ∧ TTS_DUCK_LEVEL < sess.volume ∧
          (duck_volume orig env).originalVolume = some sess.volume) ∧
    ((restore_volume orig env).originalVolume = none) ∧
    ((sysDuck s).2 = true →
        (sysDuck (sysDuck s).1).2 = false ∧
        (sysDuck (sysDuck s).1).1 = (sysDuck s).1) := by
  refine ⟨?_, ?_, ?_⟩
  · intro hne
    unfold duck_volume at hne ⊢
    cases hsess : get_music_session env with
    | none => simp [hsess] at hne
    | some sess =>
      simp only [hsess] at hne ⊢
      by_cases hget : env.getVolRaises
      · simp [hget] at hne
      · by_cases hle : sess.volume ≤ TTS_DUCK_LEVEL
        · simp [hget, hle] at hne
        · exact ⟨sess, rfl, by simpa using hget, not_le.mp hle,
            by by_cases hset : env.setVolRaises <;> simp [hget, hle, hset]⟩
  · unfold restore_volume
    cases orig with
    | none => rfl
    | some v =>
      cases hsess : get_music_session env with
      | none => rfl
      | some sess => by_cases hset : env.setVolRaises <;> simp [hset]
  · intro hsucc
    by_cases hle : s.sessionVolume ≤ TTS_DUCK_LEVEL
    · rw [sysDuck_eq, if_pos hle] at hsucc
      simp at hsucc
    · have h1 : (sysDuck s).1 = ⟨some s.sessionVolume, TTS_DUCK_LEVEL⟩ := by
        rw [sysDuck_eq, if_neg hle]
      rw [h1, sysDuck_eq]
      simp

/-- Witness for C5 (amended): from an unducked state at volume 0.8, the
first duck succeeds and the second duck is a no-op. -/
theorem duck_restore_single_level_witness :
    (sysDuck (sysDuck ⟨none, 4/5⟩).1).2 = false ∧
    (sysDuck (sysDuck ⟨none, 4/5⟩).1).1 = (sysDuck ⟨none, 4/5⟩).1 :=
  (duck_restore_single_level none (healthyEnv (4/5)) ⟨none, 4/5⟩).2.2
    (by norm_num [sysDuck, duck_volume, healthyEnv, get_music_session,
      TTS_DUCK_LEVEL])

/-- C8: every modelled internal failure of the ducking path — pycaw
missing, session lookup raising, `GetMasterVolume` or `SetMasterVolume`
raising — is absorbed inside `duck_volume` / `restore_volume` (the model
functions stay total, mirroring the `try/except` blocks) and surfaces only
as a `False` return. (`restore_volume` never reads the volume, so
`getVolRaises` is not among its failure modes.) -/
theorem duck_restore_nonfatal (orig : Option ℚ) (env : DuckEnv) :
    ((env.pycawAvailable = false ∨ env.lookupRaises = true ∨
        env.getVolRaises = true ∨ env.setVolRaises = true) →
      (duck_volume orig env).ret = false) ∧
    ((env.pycawAvailable = false ∨ env.lookupRaises = true ∨
        env.setVolRaises = true) →
      (restore_volume orig env).ret = false) := by
  have hnone : ∀ henv : DuckEnv, henv.pycawAvailable = false ∨
      henv.lookupRaises = true → get_music_session henv = none := by
    intro henv h
    unfold get_music_session
    rcases h with h | h <;> simp [h]
  constructor
  · intro h
    unfold duck_volume
    rcases h with h | h | h | h
    · simp [hnone env (Or.inl h)]
    · simp [hnone env (Or.inr h)]
    · cases hsess : get_music_session env <;> simp [h]
    · cases hsess : get_music_session env with
      | none => simp
      | some sess =>
        by_cases hget : env.getVolRaises
        · simp [hget]
        · by_cases hle : sess.volume ≤ TTS_DUCK_LEVEL <;> simp [hget, hle, h]
  · intro h
    unfold restore_volume
    cases orig with
    | none => rfl
    | some v =>
      rcases h with h | h | h
      · simp [hnone env (Or.inl h)]
      · simp [hnone env (Or.inr h)]
      · cases hsess : get_music_session env <;> simp [h]

/-- Witness for C8: with a session present at volume 0.8 but
`SetMasterVolume` raising, both duck and restore return `False`. -/
theorem duck_restore_nonfatal_witness :
    (duck_volume (some (1/2))
        ⟨true, true, false, some ⟨4/5⟩, false, true⟩).ret = false ∧
    (restore_volume (some (1/2))
        ⟨true, true, false, some ⟨4/5⟩, false, true⟩).ret = false :=
  ⟨(duck_restore_nonfatal (some (1/2))
      ⟨true, true, false, some ⟨4/5⟩, false, true⟩).1
      (Or.inr (Or.inr (Or.inr rfl))),
   (duck_restore_nonfatal (some (1/2))
      ⟨true, true, false, some ⟨4/5⟩, false, true⟩).2
      (Or.inr (Or.inr rfl))⟩

/-- Counterexample for C1: `on_device_state_changed` returns early when
`self.codec` is `None`, so a LISTENING call with no codec neither sets the
silence-period flag nor suspends for 200ms, contrary to "for every call
... if state == LISTENING the silence-period flag is set on entry, the
handler suspends for 200ms". -/
theorem on_device_state_changed_no_codec :
    (on_device_state_changed false false DeviceState.listening
        false).flagDuringWait = false ∧
    (on_device_state_changed false false DeviceState.listening
        false).sleepSeconds = none := ⟨rfl, rfl⟩

/-- C1 (amended): when a codec is present and the state is LISTENING, the
silence-period flag is set on entry, the handler suspends for 0.2 s, and
the flag is cleared on every exit path (also when the sleep raises, in
which case the exception propagates after the `finally` clears the flag);
when the codec is absent or the state is non-LISTENING the call leaves the
flag untouched; hence whenever the flag is false on entry it is false again
after every completed call. -/
theorem on_device_state_changed_spec (codecPresent flagBefore : Bool)
    (state : DeviceState) (sleepRaises : Bool) :
    (codecPresent = true → state = DeviceState.listening →
      on_device_state_changed codecPresent flagBefore state sleepRaises =
        ⟨true, some (1/5), false, sleepRaises⟩) ∧
    ((codecPresent = false ∨ state ≠ DeviceState.listening) →
      on_device_state_changed codecPresent flagBefore state sleepRaises =
        ⟨flagBefore, none, flagBefore, false⟩) ∧
    (flagBefore = false →
      (on_device_state_changed codecPresent flagBefore state
          sleepRaises).flagAfter = false) := by
  refine ⟨?_, ?_, ?_⟩
  · intro hc hs
    subst hc hs
    rfl
  · intro h
    rcases h with h | h
    · subst h
      rfl
    · cases codecPresent
      · rfl
      · simp [on_device_state_changed, h]
  · intro hf
    subst hf
    cases codecPresent
    · rfl
    · by_cases hs : state = DeviceState.listening <;>
        simp [on_device_state_changed, hs]

/-- Witness for C1 (amended): with a codec, on LISTENING (and the sleep
raising, e.g. task cancellation) the flag is up during the wait and cleared
on exit. -/
theorem on_device_state_changed_spec_witness :
    on_device_state_changed true false DeviceState.listening true =
      ⟨true, some (1/5), false, true⟩ :=
  (on_device_state_changed_spec true false DeviceState.listening true).1
    rfl rfl

/-- C6: `_should_send_microphone_audio` is `False` during the silence
period, and otherwise returns exactly the capture-allowed predicate's
verdict, with `False` when the application is absent or the predicate
raises. -/
theorem should_send_microphone_audio_spec :
    (∀ app, should_send_microphone_audio true app = false) ∧
    (∀ b, should_send_microphone_audio false (some (Except.ok b)) = b) ∧
    should_send_microphone_audio false none = false ∧
    (∀ e : Unit,
      should_send_microphone_audio false (some (Except.error e)) = false) :=
  ⟨fun _ => rfl, fun _ => rfl, rfl, fun _ => rfl⟩

/-- C9: `_on_encoded_audio` drops the frame — nothing posted to the main
loop, no exception escaping — whenever the app is absent or not running,
the loop reference is unset, or the loop is closed; and it never raises in
any case (blanket `except: pass`). -/
theorem on_encoded_audio_drop (appPresent appRunning loopPresent loopClosed
    callSoonRaises : Bool) :
    ((appPresent = false ∨ appRunning = false ∨ loopPresent = false ∨
        loopClosed = true) →
      on_encoded_audio appPresent appRunning loopPresent loopClosed
        callSoonRaises = ⟨false, false⟩) ∧
    (on_encoded_audio appPresent appRunning loopPresent loopClosed
        callSoonRaises).raised = false := by
  constructor
  · intro h
    rcases h with h | h | h | h <;> subst h <;> simp [on_encoded_audio]
  · cases appPresent <;> cases appRunning <;> cases loopPresent <;>
      cases loopClosed <;> cases callSoonRaises <;> rfl

/-- Witness for C9: app present and running, loop reference set, but the
loop already closed: the frame is dropped with no raise. -/
theorem on_encoded_audio_drop_witness :
    on_encoded_audio true true true true false = ⟨false, false⟩ :=
  (on_encoded_audio_drop true true true true false).1
    (Or.inr (Or.inr (Or.inr rfl)))

/-- The duck branch never lets an exception escape. -/
theorem duck_music_for_tts_raised_eq (env : TtsStartEnv) :
    (duck_music_for_tts env).raised = false := rfl

/-- The restore branch never lets an exception escape. -/
theorem restore_music_after_tts_raised_eq (env : TtsStopEnv) :
    (restore_music_after_tts env).raised = false := by
  unfold restore_music_after_tts
  split_ifs
  · rfl
  · cases env.originalVolume <;> rfl

/-- C7: `on_incoming_json` dispatches `{"type": "tts", "state": "start"}`
to the duck path and `{"type": "tts", "state": "stop"}` to the restore
path; non-dict messages, any other `type`, and any other `state` are
ignored without error; and no exception ever escapes the handler (its
`try/except` swallows raises from the dispatched branch). -/
theorem on_incoming_json_spec (startEnv : TtsStartEnv)
    (stopEnv : TtsStopEnv) (br : Bool) (m : JsonMessage) :
    (br = false →
      on_incoming_json (JsonMessage.dict (some "tts") (some "start"))
          startEnv stopEnv br = duck_music_for_tts startEnv) ∧
    (br = false →
      on_incoming_json (JsonMessage.dict (some "tts") (some "stop"))
          startEnv stopEnv br = restore_music_after_tts stopEnv) ∧
    (∀ t s, t ≠ some "tts" →
      on_incoming_json (JsonMessage.dict t s) startEnv stopEnv br =
        ⟨[], false⟩) ∧
    (∀ t s, s ≠ some "start" → s ≠ some "stop" →
      on_incoming_json (JsonMessage.dict t s) startEnv stopEnv br =
        ⟨[], false⟩) ∧
    (on_incoming_json m startEnv stopEnv br).raised = false := by
  refine ⟨?_, ?_, ?_, ?_, ?_⟩
  · intro hbr
    subst hbr
    rfl
  · intro hbr
    subst hbr
    rfl
  · intro t s ht
    simp [on_incoming_json, ht]
  · intro t s h1 h2
    by_cases ht : t = some "tts" <;> simp [on_incoming_json, ht, h1, h2]
  · cases m with
    | notDict => rfl
    | dict t s =>
      unfold on_incoming_json
      dsimp only
      split_ifs <;>
        first
          | rfl
          | exact duck_music_for_tts_raised_eq startEnv
          | exact restore_music_after_tts_raised_eq stopEnv

/-- Witness for C7: a TTS start message (with a healthy branch) runs the
duck path. -/
theorem on_incoming_json_spec_witness :
    on_incoming_json (JsonMessage.dict (some "tts") (some "start"))
        ⟨true, false, false, Except.ok true⟩ ⟨false, none⟩ false =
      duck_music_for_tts ⟨true, false, false, Except.ok true⟩ :=
  (on_incoming_json_spec ⟨true, false, false, Except.ok true⟩
      ⟨false, none⟩ false JsonMessage.notDict).1 rfl

/-- C10: in `_duck_music_for_tts`, when a codec is present the
`clear_audio_queue` call is the first observable event (so it precedes any
ducking action); `duck_volume` is invoked exactly when the player lookup
succeeds and `is_music_actually_playing()` reported `True`; the events are
a function of those conditions alone, so a failure of the queue-clearing
call (`clearRaises`, caught in Step 1's own `try`) does not affect the
ducking attempt and conversely; and no exception escapes. -/
theorem duck_music_for_tts_spec (env env' : TtsStartEnv) :
    (env.codecPresent = true →
      (duck_music_for_tts env).events.head? = some TtsEvent.clearQueue) ∧
    (TtsEvent.duckMusic ∈ (duck_music_for_tts env).events ↔
      env.playerLookupRaises = false ∧ env.isPlaying = Except.ok true) ∧
    (env'.codecPresent = env.codecPresent →
      env'.playerLookupRaises = env.playerLookupRaises →
      env'.isPlaying = env.isPlaying →
      duck_music_for_tts env' = duck_music_for_tts env) ∧
    (duck_music_for_tts env).raised = false := by
  obtain ⟨c, cr, pl, ip⟩ := env
  refine ⟨?_, ?_, ?_, rfl⟩
  · intro hc
    subst hc
    rfl
  · cases pl <;> rcases ip with e | b
    · cases e
      simp [duck_music_for_tts]
    · cases c <;> cases b <;> simp [duck_music_for_tts]
    · cases e
      simp [duck_music_for_tts]
    · cases c <;> cases b <;> simp [duck_music_for_tts]
  · intro h1 h2 h3
    obtain ⟨c', cr', pl', ip'⟩ := env'
    simp only at h1 h2 h3
    subst h1 h2 h3
    rfl

/-- Witness for C10: codec present, queue-clear raising, player lookup
fine and music playing: the events are the clear followed by the duck. -/
theorem duck_music_for_tts_spec_witness :
    (duck_music_for_tts
        ⟨true, true, false, Except.ok true⟩).events.head? =
      some TtsEvent.clearQueue :=
  (duck_music_for_tts_spec ⟨true, true, false, Except.ok true⟩
      ⟨true, true, false, Except.ok true⟩).1 rfl

/-- Permit accounting: along any interleaving of spawned send tasks, the
number of tasks inside the `async with self._send_sem` body plus the free
permits equals the semaphore's capacity. -/
theorem send_permit_invariant {n : Nat} {s : SendState}
    (h : SendReachable n s) :
    holdingCount s + s.permits = MAX_CONCURRENT_AUDIO_SENDS := by
  induction h with
  | refl =>
    simp [sendInit, holdingCount, Multiset.count_replicate]
  | tail _ hstep ih =>
    cases hstep with
    | spawn p ts =>
      simp only [holdingCount, Multiset.count_cons] at ih ⊢
      simp only [reduceCtorEq, if_false] at ih ⊢
      omega
    | acquire p ts =>
      simp [holdingCount, Multiset.count_cons] at ih ⊢
      omega
    | release p ts =>
      simp [holdingCount, Multiset.count_cons] at ih ⊢
      omega

/-- C2: in every state reachable by any interleaving of spawned `_send()`
tasks, at most `MAX_CONCURRENT_AUDIO_SENDS = 4` sends hold a permit (are
executing the channel check / `send_audio`) simultaneously; a task can
enter the send body only through an acquire and leaves its permit released
on every exit. -/
theorem concurrent_sends_bounded {n : Nat} {s : SendState}
    (h : SendReachable n s) :
    holdingCount s ≤ MAX_CONCURRENT_AUDIO_SENDS := by
  have hinv := send_permit_invariant h
  omega

/-- Witness for C2: 5 frames spawned, one task through the semaphore — a
reachable state in which the bound holds. -/
theorem concurrent_sends_bounded_witness :
    holdingCount ⟨3, SendPhase.holding ::ₘ
        Multiset.replicate 4 SendPhase.entered⟩ ≤
      MAX_CONCURRENT_AUDIO_SENDS :=
  concurrent_sends_bounded (n := 5)
    (Relation.ReflTransGen.single
      (SendStep.acquire 3 (Multiset.replicate 4 SendPhase.entered)))

end XiaoZhi
